import Mathlib

/-!
Shallow embedding of the financial-ledger API (src/index.js, Node/Express over
PostgreSQL).  The store is modelled as lists of rows for the three relations
accounts, transactions and ledger_entries, plus the two SERIAL sequences
(nextTxId, nextEntryId).  PostgreSQL sequences are non-transactional: a rolled
back attempt still advances them, so rollback restores the rows but not the
counters.  Monetary values (NUMERIC(14,2) columns and JSON numbers) are
embedded as exact rationals; JSON request fields are Option-valued, with
JavaScript truthiness (`!x`) embedded for numbers as `x ≠ 0` and for strings as
`x ≠ ""` (undefined/null ↦ none).  `parseInt(x, 10)` on a finite JSON number is
truncation toward zero; `parseFloat` on a finite JSON number is the identity;
the `Number.isNaN` guards in the source can never fire on such values and have
no branch here.  Each handler returns its HTTP outcome, the post-call store,
and the trace of SQL statements it issued, in source order.
-/

namespace Ledger

/-- One row of the accounts relation: accounts(id, user_id, type, currency, status). -/
structure Account where
  id : Int
  user_id : String
  type : String
  currency : String
  status : String
deriving DecidableEq, Repr

/-- One row of the transactions relation:
transactions(id, type, amount, currency, source_account_id, destination_account_id, status, description). -/
structure Transaction where
  id : Nat
  type : String
  amount : ℚ
  currency : String
  source_account_id : Option Int
  destination_account_id : Option Int
  status : String
  description : Option String
deriving DecidableEq, Repr

/-- One row of the ledger_entries relation:
ledger_entries(id, transaction_id, account_id, entry_type, amount). -/
structure LedgerEntry where
  id : Nat
  transaction_id : Nat
  account_id : Int
  entry_type : String
  amount : ℚ
deriving DecidableEq, Repr

/-- The persistent store: the three relations plus the SERIAL sequences. -/
structure Store where
  accounts : List Account
  transactions : List Transaction
  entries : List LedgerEntry
  nextTxId : Nat
  nextEntryId : Nat
deriving DecidableEq, Repr

/-- SQL statements issued by a handler, in source order.  `selectAccounts ids`
is the existence check (`SELECT id FROM accounts WHERE id = ...`);
`insertEntries n` is one INSERT statement writing `n` ledger rows;
`selectBalance a` is the balance recomputation for account `a`. -/
inductive Event
  | begin
  | selectAccounts (ids : List Int)
  | insertTransaction
  | insertEntries (n : Nat)
  | selectBalance (accId : Int)
  | updateTransaction (txId : Nat)
  | commit
  | rollback
deriving DecidableEq, Repr

/-- HTTP outcome of a handler: `ok` is a 2xx JSON payload, `err` carries the
status code and the `message` field of the error body. -/
inductive Outcome (α : Type)
  | ok (code : Nat) (payload : α)
  | err (code : Nat) (message : String)
deriving DecidableEq, Repr

/-- JavaScript truthiness of a possibly-absent JSON number:
`!x` holds for undefined/null and for the number 0. -/
def truthyNum (o : Option ℚ) : Bool :=
  match o with
  | none => false
  | some q => q != 0

/-- JavaScript truthiness of a possibly-absent JSON string:
`!x` holds for undefined/null and for the empty string. -/
def truthyStr (o : Option String) : Bool :=
  match o with
  | none => false
  | some s => s != ""

/-- `parseInt(x, 10)` on a finite JSON number: truncation toward zero. -/
def jsTrunc (q : ℚ) : Int :=
  if q < 0 then ⌈q⌉ else ⌊q⌋

/-- `description || null`: a falsy description becomes NULL. -/
def jsOrNull (o : Option String) : Option String :=
  match o with
  | some s => if s == "" then none else some s
  | none => none

/-- Signed contribution of one ledger row to a balance, mirroring the SQL
CASE WHEN entry_type = credit THEN amount WHEN debit THEN -amount ELSE 0. -/
def signedAmount (e : LedgerEntry) : ℚ :=
  if e.entry_type == "credit" then e.amount
  else if e.entry_type == "debit" then -e.amount
  else 0

/-- The balance recomputation query: COALESCE(SUM(CASE ...), 0) over
ledger_entries WHERE account_id = accId.  An empty sum is 0. -/
def sumEntries (l : List LedgerEntry) (accId : Int) : ℚ :=
  ((l.filter (fun e => e.account_id == accId)).map signedAmount).sum

/-- `UPDATE transactions SET status = st WHERE id = txId`. -/
def setTxStatus (txs : List Transaction) (txId : Nat) (st : String) : List Transaction :=
  txs.map (fun t => if t.id == txId then { t with status := st } else t)

/-- Rows of accounts matching `SELECT id FROM accounts WHERE id = $1`. -/
def accountRows (s : Store) (accId : Int) : List Account :=
  s.accounts.filter (fun a => a.id == accId)

/-- Rows of accounts matching `SELECT id FROM accounts WHERE id = ANY($1::int[])`
for the two-element array used by the transfer handler. -/
def accountRows2 (s : Store) (srcId dstId : Int) : List Account :=
  s.accounts.filter (fun a => a.id == srcId || a.id == dstId)

/-- Request body of POST /deposits. -/
structure DepositReq where
  accountId : Option ℚ
  amount : Option ℚ
  currency : Option String
  description : Option String
deriving DecidableEq, Repr

/-- Request body of POST /withdrawals. -/
structure WithdrawReq where
  accountId : Option ℚ
  amount : Option ℚ
  currency : Option String
  description : Option String
deriving DecidableEq, Repr

/-- Request body of POST /transfers. -/
structure TransferReq where
  sourceAccountId : Option ℚ
  destinationAccountId : Option ℚ
  amount : Option ℚ
  currency : Option String
  description : Option String
deriving DecidableEq, Repr

/-- Success payload of POST /deposits and POST /withdrawals:
{transactionId, status, accountId, amount, currency}.  The source formats
`amount` with toFixed(2); the numeric value is kept here. -/
structure MoneyOpPayload where
  transactionId : Nat
  status : String
  accountId : Int
  amount : ℚ
  currency : String
deriving DecidableEq, Repr

/-- Success payload of POST /transfers. -/
structure TransferPayload where
  transactionId : Nat
  status : String
  sourceAccountId : Int
  destinationAccountId : Int
  amount : ℚ
  currency : String
deriving DecidableEq, Repr

/-- Payload of GET /accounts/:id: the account row spread together with the
derived balance. -/
structure AccountPayload where
  id : Int
  userId : String
  type : String
  currency : String
  status : String
  balance : ℚ
deriving DecidableEq, Repr

/-- POST /deposits (src/index.js lines 181-270): validate, BEGIN, existence
check, insert pending transaction, insert credit entry, mark completed,
COMMIT.  Returns (outcome, post-call store, SQL trace). -/
def deposit (s : Store) (req : DepositReq) :
    Outcome MoneyOpPayload × Store × List Event :=
  if !(truthyNum req.accountId && truthyNum req.amount && truthyStr req.currency) then
    (.err 400 "accountId, amount, and currency are required", s, [])
  else
    let accId := jsTrunc (req.accountId.getD 0)
    let numericAmount := req.amount.getD 0
    let currency := req.currency.getD ""
    if numericAmount ≤ 0 then
      (.err 400 "Invalid accountId or amount", s, [])
    else if (accountRows s accId).length == 0 then
      (.err 404 "Account not found", s, [.begin, .selectAccounts [accId], .rollback])
    else
      let txId := s.nextTxId
      let pendingTx : Transaction :=
        ⟨txId, "deposit", numericAmount, currency, none, some accId, "pending",
         jsOrNull req.description⟩
      let entry : LedgerEntry := ⟨s.nextEntryId, txId, accId, "credit", numericAmount⟩
      let s' : Store :=
        ⟨s.accounts, setTxStatus (s.transactions ++ [pendingTx]) txId "completed",
         s.entries ++ [entry], s.nextTxId + 1, s.nextEntryId + 1⟩
      (.ok 201 ⟨txId, "completed", accId, numericAmount, currency⟩, s',
       [.begin, .selectAccounts [accId], .insertTransaction, .insertEntries 1,
        .updateTransaction txId, .commit])

/-- POST /withdrawals (src/index.js lines 272-385): like deposit but with a
debit entry and, after the insert, a balance recomputation; a negative
recomputed balance rolls the whole attempt back with 422.  Rollback restores
the rows; the SERIAL sequences stay advanced (PostgreSQL sequences do not
roll back). -/
def withdraw (s : Store) (req : WithdrawReq) :
    Outcome MoneyOpPayload × Store × List Event :=
  if !(truthyNum req.accountId && truthyNum req.amount && truthyStr req.currency) then
    (.err 400 "accountId, amount, and currency are required", s, [])
  else
    let accId := jsTrunc (req.accountId.getD 0)
    let numericAmount := req.amount.getD 0
    let currency := req.currency.getD ""
    if numericAmount ≤ 0 then
      (.err 400 "Invalid accountId or amount", s, [])
    else if (accountRows s accId).length == 0 then
      (.err 404 "Account not found", s, [.begin, .selectAccounts [accId], .rollback])
    else
      let txId := s.nextTxId
      let pendingTx : Transaction :=
        ⟨txId, "withdrawal", numericAmount, currency, some accId, none, "pending",
         jsOrNull req.description⟩
      let entry : LedgerEntry := ⟨s.nextEntryId, txId, accId, "debit", numericAmount⟩
      let newBalance := sumEntries (s.entries ++ [entry]) accId
      if newBalance < 0 then
        (.err 422 "Insufficient funds",
         ⟨s.accounts, s.transactions, s.entries, s.nextTxId + 1, s.nextEntryId + 1⟩,
         [.begin, .selectAccounts [accId], .insertTransaction, .insertEntries 1,
          .selectBalance accId, .rollback])
      else
        let s' : Store :=
          ⟨s.accounts, setTxStatus (s.transactions ++ [pendingTx]) txId "completed",
           s.entries ++ [entry], s.nextTxId + 1, s.nextEntryId + 1⟩
        (.ok 201 ⟨txId, "completed", accId, numericAmount, currency⟩, s',
         [.begin, .selectAccounts [accId], .insertTransaction, .insertEntries 1,
          .selectBalance accId, .updateTransaction txId, .commit])

/-- POST /transfers (src/index.js lines 37-179): validate (missing fields,
non-positive amount, equal ids), BEGIN, single existence check covering both
ids, insert pending transaction, insert both legs in one statement, recompute
the source balance, roll back with 422 if negative, else mark completed and
COMMIT. -/
def transfer (s : Store) (req : TransferReq) :
    Outcome TransferPayload × Store × List Event :=
  if !(truthyNum req.sourceAccountId && truthyNum req.destinationAccountId &&
       truthyNum req.amount && truthyStr req.currency) then
    (.err 400 "sourceAccountId, destinationAccountId, amount, and currency are required",
     s, [])
  else
    let sourceId := jsTrunc (req.sourceAccountId.getD 0)
    let destId := jsTrunc (req.destinationAccountId.getD 0)
    let numericAmount := req.amount.getD 0
    let currency := req.currency.getD ""
    if numericAmount ≤ 0 then
      (.err 400 "Invalid account ids or amount", s, [])
    else if sourceId == destId then
      (.err 400 "Source and destination accounts must be different", s, [])
    else if (accountRows2 s sourceId destId).length != 2 then
      (.err 404 "One or both accounts not found", s,
       [.begin, .selectAccounts [sourceId, destId], .rollback])
    else
      let txId := s.nextTxId
      let pendingTx : Transaction :=
        ⟨txId, "transfer", numericAmount, currency, some sourceId, some destId,
         "pending", jsOrNull req.description⟩
      let debitEntry : LedgerEntry :=
        ⟨s.nextEntryId, txId, sourceId, "debit", numericAmount⟩
      let creditEntry : LedgerEntry :=
        ⟨s.nextEntryId + 1, txId, destId, "credit", numericAmount⟩
      let newBalance := sumEntries (s.entries ++ [debitEntry, creditEntry]) sourceId
      if newBalance < 0 then
        (.err 422 "Insufficient funds",
         ⟨s.accounts, s.transactions, s.entries, s.nextTxId + 1, s.nextEntryId + 2⟩,
         [.begin, .selectAccounts [sourceId, destId], .insertTransaction,
          .insertEntries 2, .selectBalance sourceId, .rollback])
      else
        let s' : Store :=
          ⟨s.accounts, setTxStatus (s.transactions ++ [pendingTx]) txId "completed",
           s.entries ++ [debitEntry, creditEntry], s.nextTxId + 1, s.nextEntryId + 2⟩
        (.ok 201 ⟨txId, "completed", sourceId, destId, numericAmount, currency⟩, s',
         [.begin, .selectAccounts [sourceId, destId], .insertTransaction,
          .insertEntries 2, .selectBalance sourceId, .updateTransaction txId, .commit])

/-- GET /accounts/:id (src/index.js lines 388-442): fetch the account row, or
404; then recompute the balance from ledger_entries and return the row spread
together with the derived balance.  The route stores no balance anywhere: the
payload's balance field is computed by `sumEntries` on every read.  `accId`
is the already-parsed path parameter. -/
def getAccount (s : Store) (accId : Int) : Outcome AccountPayload :=
  match accountRows s accId with
  | [] => .err 404 "Account not found"
  | a :: _ => .ok 200 ⟨a.id, a.user_id, a.type, a.currency, a.status,
                       sumEntries s.entries accId⟩

/-- One money-moving API call. -/
inductive Op
  | dep (req : DepositReq)
  | wd (req : WithdrawReq)
  | tr (req : TransferReq)

/-- The store after one API call (the handlers' post-call store). -/
def applyOp (s : Store) (op : Op) : Store :=
  match op with
  | .dep r => (deposit s r).2.1
  | .wd r => (withdraw s r).2.1
  | .tr r => (transfer s r).2.1

/-- The store after a sequence of API calls. -/
def runOps (s : Store) (ops : List Op) : Store :=
  ops.foldl applyOp s

/-- Sequence discipline: every persisted row's ids are below the SERIAL
counters (true of every store PostgreSQL can reach, since ids come from the
sequences). -/
def WF (s : Store) : Prop :=
  (∀ t ∈ s.transactions, t.id < s.nextTxId) ∧
  (∀ e ∈ s.entries, e.transaction_id < s.nextTxId)

/-- Every persisted transaction row has status completed. -/
def allCompleted (s : Store) : Prop :=
  ∀ t ∈ s.transactions, t.status = "completed"

theorem sumEntries_append (l₁ l₂ : List LedgerEntry) (a : Int) :
    sumEntries (l₁ ++ l₂) a = sumEntries l₁ a + sumEntries l₂ a := by
  simp [sumEntries, List.filter_append]

theorem sumEntries_credit (i t : Nat) (a : Int) (q : ℚ) :
    sumEntries [⟨i, t, a, "credit", q⟩] a = q := by
  simp [sumEntries, signedAmount]

theorem sumEntries_debit (i t : Nat) (a : Int) (q : ℚ) :
    sumEntries [⟨i, t, a, "debit", q⟩] a = -q := by
  simp [sumEntries, signedAmount]

theorem sumEntries_other (e : LedgerEntry) (a : Int) (h : e.account_id ≠ a) :
    sumEntries [e] a = 0 := by
  simp [sumEntries, h]

theorem sumEntries_cons (e : LedgerEntry) (l : List LedgerEntry) (a : Int) :
    sumEntries (e :: l) a = sumEntries [e] a + sumEntries l a := by
  have h : e :: l = [e] ++ l := rfl
  rw [h, sumEntries_append]

/-- The signed sum equals total credits minus total debits (rows with any
other entry_type contribute 0 to the signed sum and to neither total). -/
theorem sum_signed_split (l : List LedgerEntry) :
    (l.map signedAmount).sum =
      ((l.filter (fun e => e.entry_type == "credit")).map (fun e => e.amount)).sum -
      ((l.filter (fun e => e.entry_type == "debit")).map (fun e => e.amount)).sum := by
  induction l with
  | nil => simp
  | cons e l ih =>
    by_cases hc : e.entry_type = "credit"
    · simp [signedAmount, hc, ih]
      ring
    · by_cases hd : e.entry_type = "debit"
      · simp [signedAmount, hc, hd, ih]
        ring
      · simp [signedAmount, hc, hd, ih]

/-- The UPDATE targeting a fresh id leaves existing rows untouched and marks
only the appended row. -/
theorem setTxStatus_append_fresh (txs : List Transaction) (tx : Transaction)
    (st : String) (h : ∀ t ∈ txs, t.id ≠ tx.id) :
    setTxStatus (txs ++ [tx]) tx.id st = txs ++ [{ tx with status := st }] := by
  induction txs with
  | nil => simp [setTxStatus]
  | cons t ts ih =>
    have ht : t.id ≠ tx.id := h t (by simp)
    have hts : ∀ u ∈ ts, u.id ≠ tx.id := fun u hu => h u (by simp [hu])
    simp only [List.cons_append, setTxStatus, List.map_cons] at *
    rw [if_neg (by simpa using ht)]
    have := ih hts
    simp only [setTxStatus] at this
    rw [this]

/-- Entries of earlier transactions never match a fresh transaction id. -/
theorem filter_txid_nil (l : List LedgerEntry) (n : Nat)
    (h : ∀ e ∈ l, e.transaction_id < n) :
    l.filter (fun e => e.transaction_id == n) = [] := by
  rw [List.filter_eq_nil_iff]
  intro e he
  simpa using Nat.ne_of_lt (h e he)

/-- A small concrete store used by the witnesses: two active accounts and an
empty ledger. -/
def wStore : Store :=
  ⟨[⟨1, "u1", "checking", "USD", "active"⟩, ⟨2, "u2", "savings", "USD", "active"⟩],
   [], [], 1, 1⟩

/-- C2: after every sequence of deposits, withdrawals and transfers, the
balance GET /accounts/:id reports for an existing account is exactly the sum
of credit amounts minus the sum of debit amounts over that account's ledger
entries, and is 0 when the account has no entries; the payload's balance is
recomputed by sumEntries on every read, never read from a stored field (the
Account row has no balance attribute). -/
theorem getAccount_balance_is_derived (s₀ : Store) (ops : List Op) (accId : Int)
    (h : accountRows (runOps s₀ ops) accId ≠ []) :
    ∃ p, getAccount (runOps s₀ ops) accId = .ok 200 p ∧
      p.balance = sumEntries (runOps s₀ ops).entries accId ∧
      p.balance =
        ((((runOps s₀ ops).entries.filter (fun e => e.account_id == accId)).filter
            (fun e => e.entry_type == "credit")).map (fun e => e.amount)).sum -
        ((((runOps s₀ ops).entries.filter (fun e => e.account_id == accId)).filter
            (fun e => e.entry_type == "debit")).map (fun e => e.amount)).sum ∧
      ((runOps s₀ ops).entries.filter (fun e => e.account_id == accId) = [] →
        p.balance = 0) := by
  unfold getAccount
  cases hrows : accountRows (runOps s₀ ops) accId with
  | nil => exact absurd hrows h
  | cons a rest =>
    refine ⟨_, rfl, rfl, ?_, ?_⟩
    · exact sum_signed_split _
    · intro hnil
      simp [sumEntries, hnil]

/-- A concrete store with history: account 1 holds a credit of 100 and a
debit of 30 from two completed transactions. -/
def w2Store : Store :=
  ⟨[⟨1, "u1", "checking", "USD", "active"⟩, ⟨2, "u2", "savings", "USD", "active"⟩],
   [⟨1, "deposit", 100, "USD", none, some 1, "completed", none⟩,
    ⟨2, "withdrawal", 30, "USD", some 1, none, "completed", none⟩],
   [⟨1, 1, 1, "credit", 100⟩, ⟨2, 2, 1, "debit", 30⟩], 3, 3⟩

/-- C2 witness: on the concrete history of `w2Store` (the empty op sequence
leaves it as is), the reported balance is the sumEntries recomputation. -/
theorem getAccount_balance_is_derived_witness :
    ∃ p, getAccount (runOps w2Store []) 1 = .ok 200 p ∧
      p.balance = sumEntries (runOps w2Store []).entries 1 := by
  obtain ⟨p, h1, h2, _⟩ := getAccount_balance_is_derived w2Store [] 1 (by decide)
  exact ⟨p, h1, h2⟩

/-- The monetary field of a deposit/withdrawal success payload (the payload
carries exactly one monetary value, its `amount`). -/
def payloadAmount (o : Outcome MoneyOpPayload) : Option ℚ :=
  match o with
  | .ok _ p => some p.amount
  | .err _ _ => none

/-- C4 (amended): a deposit of a positive amount A into an existing account
succeeds with 201, the payload carries the new transaction id, the deposited
amount and the currency (no balance field), and the account's recomputed
balance after commit is exactly the pre-call balance plus A. -/
theorem deposit_balance_B_plus_A (s : Store) (req : DepositReq) (aid A : ℚ)
    (c : String)
    (ha : req.accountId = some aid) (haid : aid ≠ 0)
    (hA : req.amount = some A) (hApos : 0 < A)
    (hc : req.currency = some c) (hcne : c ≠ "")
    (hex : (accountRows s (jsTrunc aid)).length ≠ 0) :
    deposit s req =
      (.ok 201 ⟨s.nextTxId, "completed", jsTrunc aid, A, c⟩,
       ⟨s.accounts,
        setTxStatus (s.transactions ++
          [⟨s.nextTxId, "deposit", A, c, none, some (jsTrunc aid), "pending",
            jsOrNull req.description⟩]) s.nextTxId "completed",
        s.entries ++ [⟨s.nextEntryId, s.nextTxId, jsTrunc aid, "credit", A⟩],
        s.nextTxId + 1, s.nextEntryId + 1⟩,
       [.begin, .selectAccounts [jsTrunc aid], .insertTransaction, .insertEntries 1,
        .updateTransaction s.nextTxId, .commit]) ∧
    sumEntries (deposit s req).2.1.entries (jsTrunc aid) =
      sumEntries s.entries (jsTrunc aid) + A := by
  have e1 : (aid != 0) = true := by simp [haid]
  have e2 : (A != 0) = true := by simp [ne_of_gt hApos]
  have e3 : (c != "") = true := by simp [hcne]
  have hmain : deposit s req =
      (.ok 201 ⟨s.nextTxId, "completed", jsTrunc aid, A, c⟩,
       ⟨s.accounts,
        setTxStatus (s.transactions ++
          [⟨s.nextTxId, "deposit", A, c, none, some (jsTrunc aid), "pending",
            jsOrNull req.description⟩]) s.nextTxId "completed",
        s.entries ++ [⟨s.nextEntryId, s.nextTxId, jsTrunc aid, "credit", A⟩],
        s.nextTxId + 1, s.nextEntryId + 1⟩,
       [.begin, .selectAccounts [jsTrunc aid], .insertTransaction, .insertEntries 1,
        .updateTransaction s.nextTxId, .commit]) := by
    unfold deposit
    rw [ha, hA, hc]
    simp only [truthyNum, truthyStr, Option.getD_some, e1, e2, e3,
      Bool.and_self, Bool.not_true, Bool.false_eq_true, if_false]
    rw [if_neg (not_le.mpr hApos)]
    rw [if_neg (by simpa using hex)]
  refine ⟨hmain, ?_⟩
  rw [hmain]
  rw [sumEntries_append, sumEntries_credit]

/-- C4 witness: depositing 50 into account 1 of `w2Store` (pre-balance 70)
succeeds and leaves the recomputed balance at 70 + 50. -/
theorem deposit_balance_B_plus_A_witness :
    deposit w2Store ⟨some 1, some 50, some "USD", none⟩ =
      (.ok 201 ⟨w2Store.nextTxId, "completed", jsTrunc 1, 50, "USD"⟩,
       ⟨w2Store.accounts,
        setTxStatus (w2Store.transactions ++
          [⟨w2Store.nextTxId, "deposit", 50, "USD", none, some (jsTrunc 1), "pending",
            jsOrNull none⟩]) w2Store.nextTxId "completed",
        w2Store.entries ++
          [⟨w2Store.nextEntryId, w2Store.nextTxId, jsTrunc 1, "credit", 50⟩],
        w2Store.nextTxId + 1, w2Store.nextEntryId + 1⟩,
       [.begin, .selectAccounts [jsTrunc 1], .insertTransaction, .insertEntries 1,
        .updateTransaction w2Store.nextTxId, .commit]) ∧
    sumEntries (deposit w2Store ⟨some 1, some 50, some "USD", none⟩).2.1.entries
        (jsTrunc 1) =
      sumEntries w2Store.entries (jsTrunc 1) + 50 :=
  deposit_balance_B_plus_A w2Store ⟨some 1, some 50, some "USD", none⟩ 1 50 "USD"
    rfl (by norm_num) rfl (by norm_num) rfl (by simp)
    (by norm_num [accountRows, jsTrunc, w2Store])

/-- C4 counterexample: the claim says the deposit payload contains the new
balance (equal to sumEntries at commit time).  Depositing 50 into account 1
of `w2Store` (pre-balance 70) returns the payload
{transactionId 3, completed, account 1, amount 50, USD}: its only monetary
field is the deposited amount 50, while the committed balance is 120, so no
new balance is returned. -/
theorem deposit_response_lacks_new_balance :
    (deposit w2Store ⟨some 1, some 50, some "USD", none⟩).1 =
      .ok 201 ⟨3, "completed", 1, 50, "USD"⟩ ∧
    sumEntries (deposit w2Store ⟨some 1, some 50, some "USD", none⟩).2.1.entries 1
      = 120 ∧
    payloadAmount (deposit w2Store ⟨some 1, some 50, some "USD", none⟩).1 ≠
      some (sumEntries
        (deposit w2Store ⟨some 1, some 50, some "USD", none⟩).2.1.entries 1) := by
  have h := deposit_balance_B_plus_A w2Store ⟨some 1, some 50, some "USD", none⟩
    1 50 "USD" rfl (by norm_num) rfl (by norm_num) rfl (by simp)
    (by norm_num [accountRows, jsTrunc, w2Store])
  have hj : jsTrunc 1 = 1 := by norm_num [jsTrunc]
  rw [hj] at h
  have hbal : sumEntries w2Store.entries 1 = 70 := by
    simp [sumEntries, signedAmount, w2Store]
    norm_num
  refine ⟨?_, ?_, ?_⟩
  · rw [h.1]
    simp [w2Store]
  · rw [h.2, hbal]
    norm_num
  · rw [h.2, hbal, h.1]
    simp [payloadAmount, w2Store]

/-- The two legs of a transfer contribute exactly the debit to the source
account's balance when the destination is a different account. -/
theorem sumEntries_transfer_pair (i t : Nat) (srcI dstI : Int) (q : ℚ)
    (h : srcI ≠ dstI) :
    sumEntries [⟨i, t, srcI, "debit", q⟩, ⟨i + 1, t, dstI, "credit", q⟩] srcI
      = -q := by
  rw [sumEntries_cons, sumEntries_debit,
    sumEntries_other ⟨i + 1, t, dstI, "credit", q⟩ srcI (Ne.symm h)]
  ring

/-- C1: a Withdraw or Transfer on existing accounts with a positive amount
whose post-debit recomputed balance is negative returns 422 Insufficient
funds and leaves every relation of the store (accounts, transactions,
ledger_entries) exactly as before the call: the pending transaction row and
the entries written in the attempt are rolled back, so the debited account's
entry count is unchanged. -/
theorem insufficient_funds_full_rollback (s : Store) (wreq : WithdrawReq)
    (treq : TransferReq) :
    ((∃ aid A c, wreq.accountId = some aid ∧ aid ≠ 0 ∧ wreq.amount = some A ∧
        0 < A ∧ wreq.currency = some c ∧ c ≠ "" ∧
        (accountRows s (jsTrunc aid)).length ≠ 0 ∧
        sumEntries s.entries (jsTrunc aid) < A) →
      (withdraw s wreq).1 = .err 422 "Insufficient funds" ∧
      (withdraw s wreq).2.1.accounts = s.accounts ∧
      (withdraw s wreq).2.1.transactions = s.transactions ∧
      (withdraw s wreq).2.1.entries = s.entries) ∧
    ((∃ srcq dstq A c, treq.sourceAccountId = some srcq ∧ srcq ≠ 0 ∧
        treq.destinationAccountId = some dstq ∧ dstq ≠ 0 ∧
        treq.amount = some A ∧ 0 < A ∧ treq.currency = some c ∧ c ≠ "" ∧
        jsTrunc srcq ≠ jsTrunc dstq ∧
        (accountRows2 s (jsTrunc srcq) (jsTrunc dstq)).length = 2 ∧
        sumEntries s.entries (jsTrunc srcq) < A) →
      (transfer s treq).1 = .err 422 "Insufficient funds" ∧
      (transfer s treq).2.1.accounts = s.accounts ∧
      (transfer s treq).2.1.transactions = s.transactions ∧
      (transfer s treq).2.1.entries = s.entries) := by
  constructor
  · rintro ⟨aid, A, c, ha, haid, hA, hApos, hc, hcne, hex, hlt⟩
    have e1 : (aid != 0) = true := by simp [haid]
    have e2 : (A != 0) = true := by simp [ne_of_gt hApos]
    have e3 : (c != "") = true := by simp [hcne]
    have hneg : sumEntries
        (s.entries ++ [⟨s.nextEntryId, s.nextTxId, jsTrunc aid, "debit", A⟩])
        (jsTrunc aid) < 0 := by
      rw [sumEntries_append, sumEntries_debit]
      linarith
    have hmain : withdraw s wreq = (.err 422 "Insufficient funds",
        ⟨s.accounts, s.transactions, s.entries, s.nextTxId + 1, s.nextEntryId + 1⟩,
        [.begin, .selectAccounts [jsTrunc aid], .insertTransaction, .insertEntries 1,
         .selectBalance (jsTrunc aid), .rollback]) := by
      unfold withdraw
      rw [ha, hA, hc]
      simp only [truthyNum, truthyStr, Option.getD_some, e1, e2, e3,
        Bool.and_self, Bool.not_true, Bool.false_eq_true, if_false]
      rw [if_neg (not_le.mpr hApos)]
      rw [if_neg (by simpa using hex)]
      simp only [hneg, if_true]
    rw [hmain]
    exact ⟨rfl, rfl, rfl, rfl⟩
  · rintro ⟨srcq, dstq, A, c, hs, hsne, hd, hdne, hA, hApos, hc, hcne, hneq,
      hlen, hlt⟩
    have e1 : (srcq != 0) = true := by simp [hsne]
    have e2 : (dstq != 0) = true := by simp [hdne]
    have e3 : (A != 0) = true := by simp [ne_of_gt hApos]
    have e4 : (c != "") = true := by simp [hcne]
    have hneg : sumEntries
        (s.entries ++
          [⟨s.nextEntryId, s.nextTxId, jsTrunc srcq, "debit", A⟩,
           ⟨s.nextEntryId + 1, s.nextTxId, jsTrunc dstq, "credit", A⟩])
        (jsTrunc srcq) < 0 := by
      rw [sumEntries_append, sumEntries_transfer_pair _ _ _ _ _ hneq]
      linarith
    have hmain : transfer s treq = (.err 422 "Insufficient funds",
        ⟨s.accounts, s.transactions, s.entries, s.nextTxId + 1, s.nextEntryId + 2⟩,
        [.begin, .selectAccounts [jsTrunc srcq, jsTrunc dstq], .insertTransaction,
         .insertEntries 2, .selectBalance (jsTrunc srcq), .rollback]) := by
      unfold transfer
      rw [hs, hd, hA, hc]
      simp only [truthyNum, truthyStr, Option.getD_some, e1, e2, e3, e4,
        Bool.and_self, Bool.not_true, Bool.false_eq_true, if_false]
      rw [if_neg (not_le.mpr hApos)]
      rw [if_neg (by simpa using hneq)]
      rw [if_neg (by simpa using hlen)]
      simp only [hneg, if_true]
    rw [hmain]
    exact ⟨rfl, rfl, rfl, rfl⟩

/-- C1 witness: on `w2Store` (account 1 balance 70, account 2 exists),
Withdraw(1, 100) and Transfer(1→2, 100) both fail with 422 and leave all
three relations unchanged. -/
theorem insufficient_funds_full_rollback_witness :
    ((withdraw w2Store ⟨some 1, some 100, some "USD", none⟩).1 =
        .err 422 "Insufficient funds" ∧
      (withdraw w2Store ⟨some 1, some 100, some "USD", none⟩).2.1.accounts =
        w2Store.accounts ∧
      (withdraw w2Store ⟨some 1, some 100, some "USD", none⟩).2.1.transactions =
        w2Store.transactions ∧
      (withdraw w2Store ⟨some 1, some 100, some "USD", none⟩).2.1.entries =
        w2Store.entries) ∧
    ((transfer w2Store ⟨some 1, some 2, some 100, some "USD", none⟩).1 =
        .err 422 "Insufficient funds" ∧
      (transfer w2Store ⟨some 1, some 2, some 100, some "USD", none⟩).2.1.accounts =
        w2Store.accounts ∧
      (transfer w2Store ⟨some 1, some 2, some 100, some "USD", none⟩).2.1.transactions =
        w2Store.transactions ∧
      (transfer w2Store ⟨some 1, some 2, some 100, some "USD", none⟩).2.1.entries =
        w2Store.entries) := by
  have hj1 : jsTrunc (1 : ℚ) = 1 := by norm_num [jsTrunc]
  have hj2 : jsTrunc (2 : ℚ) = 2 := by norm_num [jsTrunc]
  have hbal : sumEntries w2Store.entries 1 = 70 := by
    simp [sumEntries, signedAmount, w2Store]
    norm_num
  obtain ⟨h1, h2⟩ := insufficient_funds_full_rollback w2Store
    ⟨some 1, some 100, some "USD", none⟩ ⟨some 1, some 2, some 100, some "USD", none⟩
  refine ⟨h1 ⟨1, 100, "USD", rfl, by norm_num, rfl, by norm_num, rfl, by simp, ?_, ?_⟩,
          h2 ⟨1, 2, 100, "USD", rfl, by norm_num, rfl, by norm_num, rfl, by norm_num,
              rfl, by simp, ?_, ?_, ?_⟩⟩
  · rw [hj1]
    simp [accountRows, w2Store]
  · rw [hj1, hbal]
    norm_num
  · rw [hj1, hj2]
    norm_num
  · rw [hj1, hj2]
    simp [accountRows2, w2Store]
  · rw [hj1, hbal]
    norm_num

/-- C3: a successful Transfer writes exactly two ledger entries for its
transaction — one debit against the source and one credit against the
destination, with identical amount and the new transaction id — and the two
legs are written by one INSERT inside the store transaction, so on the
insufficient-funds path neither leg survives: the transaction's entry set is
the two legs on success and empty on failure, never an odd number. -/
theorem transfer_exactly_two_entries (s : Store) (treq : TransferReq)
    (srcq dstq A : ℚ) (c : String)
    (hWF : WF s)
    (hs : treq.sourceAccountId = some srcq) (hsne : srcq ≠ 0)
    (hd : treq.destinationAccountId = some dstq) (hdne : dstq ≠ 0)
    (hA : treq.amount = some A) (hApos : 0 < A)
    (hc : treq.currency = some c) (hcne : c ≠ "")
    (hneq : jsTrunc srcq ≠ jsTrunc dstq)
    (hlen : (accountRows2 s (jsTrunc srcq) (jsTrunc dstq)).length = 2) :
    (A ≤ sumEntries s.entries (jsTrunc srcq) →
      (transfer s treq).1 = .ok 201
        ⟨s.nextTxId, "completed", jsTrunc srcq, jsTrunc dstq, A, c⟩ ∧
      ((transfer s treq).2.1.entries.filter
          (fun e => e.transaction_id == s.nextTxId)) =
        [⟨s.nextEntryId, s.nextTxId, jsTrunc srcq, "debit", A⟩,
         ⟨s.nextEntryId + 1, s.nextTxId, jsTrunc dstq, "credit", A⟩]) ∧
    (sumEntries s.entries (jsTrunc srcq) < A →
      (transfer s treq).2.1.entries = s.entries ∧
      ((transfer s treq).2.1.entries.filter
          (fun e => e.transaction_id == s.nextTxId)) = []) := by
  have e1 : (srcq != 0) = true := by simp [hsne]
  have e2 : (dstq != 0) = true := by simp [hdne]
  have e3 : (A != 0) = true := by simp [ne_of_gt hApos]
  have e4 : (c != "") = true := by simp [hcne]
  constructor
  · intro hge
    have hpos : ¬(sumEntries
        (s.entries ++
          [⟨s.nextEntryId, s.nextTxId, jsTrunc srcq, "debit", A⟩,
           ⟨s.nextEntryId + 1, s.nextTxId, jsTrunc dstq, "credit", A⟩])
        (jsTrunc srcq) < 0) := by
      rw [sumEntries_append, sumEntries_transfer_pair _ _ _ _ _ hneq]
      linarith
    have hmain : transfer s treq =
        (.ok 201 ⟨s.nextTxId, "completed", jsTrunc srcq, jsTrunc dstq, A, c⟩,
         ⟨s.accounts,
          setTxStatus (s.transactions ++
            [⟨s.nextTxId, "transfer", A, c, some (jsTrunc srcq),
              some (jsTrunc dstq), "pending", jsOrNull treq.description⟩])
            s.nextTxId "completed",
          s.entries ++
            [⟨s.nextEntryId, s.nextTxId, jsTrunc srcq, "debit", A⟩,
             ⟨s.nextEntryId + 1, s.nextTxId, jsTrunc dstq, "credit", A⟩],
          s.nextTxId + 1, s.nextEntryId + 2⟩,
         [.begin, .selectAccounts [jsTrunc srcq, jsTrunc dstq], .insertTransaction,
          .insertEntries 2, .selectBalance (jsTrunc srcq),
          .updateTransaction s.nextTxId, .commit]) := by
      unfold transfer
      rw [hs, hd, hA, hc]
      simp only [truthyNum, truthyStr, Option.getD_some, e1, e2, e3, e4,
        Bool.and_self, Bool.not_true, Bool.false_eq_true, if_false]
      rw [if_neg (not_le.mpr hApos)]
      rw [if_neg (by simpa using hneq)]
      rw [if_neg (by simpa using hlen)]
      simp only [hpos, if_false]
    rw [hmain]
    refine ⟨rfl, ?_⟩
    rw [List.filter_append, filter_txid_nil s.entries s.nextTxId hWF.2]
    simp
  · intro hlt
    have hneg : sumEntries
        (s.entries ++
          [⟨s.nextEntryId, s.nextTxId, jsTrunc srcq, "debit", A⟩,
           ⟨s.nextEntryId + 1, s.nextTxId, jsTrunc dstq, "credit", A⟩])
        (jsTrunc srcq) < 0 := by
      rw [sumEntries_append, sumEntries_transfer_pair _ _ _ _ _ hneq]
      linarith
    have hmain : transfer s treq = (.err 422 "Insufficient funds",
        ⟨s.accounts, s.transactions, s.entries, s.nextTxId + 1, s.nextEntryId + 2⟩,
        [.begin, .selectAccounts [jsTrunc srcq, jsTrunc dstq], .insertTransaction,
         .insertEntries 2, .selectBalance (jsTrunc srcq), .rollback]) := by
      unfold transfer
      rw [hs, hd, hA, hc]
      simp only [truthyNum, truthyStr, Option.getD_some, e1, e2, e3, e4,
        Bool.and_self, Bool.not_true, Bool.false_eq_true, if_false]
      rw [if_neg (not_le.mpr hApos)]
      rw [if_neg (by simpa using hneq)]
      rw [if_neg (by simpa using hlen)]
      simp only [hneg, if_true]
    rw [hmain]
    exact ⟨rfl, filter_txid_nil s.entries s.nextTxId hWF.2⟩

/-- C3 witness: Transfer(1→2, 40) on `w2Store` (source balance 70) succeeds
and the new transaction's entries are exactly the debit and credit legs. -/
theorem transfer_exactly_two_entries_witness :
    (transfer w2Store ⟨some 1, some 2, some 40, some "USD", none⟩).1 = .ok 201
      ⟨w2Store.nextTxId, "completed", jsTrunc 1, jsTrunc 2, 40, "USD"⟩ ∧
    ((transfer w2Store ⟨some 1, some 2, some 40, some "USD", none⟩).2.1.entries.filter
        (fun e => e.transaction_id == w2Store.nextTxId)) =
      [⟨w2Store.nextEntryId, w2Store.nextTxId, jsTrunc 1, "debit", 40⟩,
       ⟨w2Store.nextEntryId + 1, w2Store.nextTxId, jsTrunc 2, "credit", 40⟩] := by
  have hj1 : jsTrunc (1 : ℚ) = 1 := by norm_num [jsTrunc]
  have hj2 : jsTrunc (2 : ℚ) = 2 := by norm_num [jsTrunc]
  have hbal : sumEntries w2Store.entries 1 = 70 := by
    simp [sumEntries, signedAmount, w2Store]
    norm_num
  have h := transfer_exactly_two_entries w2Store
    ⟨some 1, some 2, some 40, some "USD", none⟩ 1 2 40 "USD" ⟨by decide, by decide⟩
    rfl (by norm_num) rfl (by norm_num) rfl (by norm_num) rfl (by simp)
    (by rw [hj1, hj2]; norm_num)
    (by rw [hj1, hj2]; simp [accountRows2, w2Store])
  exact h.1 (by rw [hj1, hbal]; norm_num)

/-- The call was rejected with HTTP 400 before any SQL was issued: an
InvalidInput message, the store (rows and sequences) exactly as before, and
an empty statement trace — no BEGIN was ever executed. -/
def rejectedBeforeStore {α : Type} (r : Outcome α × Store × List Event)
    (s : Store) : Prop :=
  (∃ m, r.1 = .err 400 m) ∧ r.2.1 = s ∧ r.2.2 = []

/-- C7: a Deposit, Withdraw or Transfer request with a missing (falsy)
argument, a non-positive amount, or — for Transfer — equal parsed source and
destination ids, is answered 400 with the store untouched and an empty SQL
trace: validation happens before BEGIN, so no store transaction is opened
and nothing is read or written. -/
theorem invalid_input_untouched (s : Store) (dreq : DepositReq)
    (wreq : WithdrawReq) (treq : TransferReq) :
    ((truthyNum dreq.accountId && truthyNum dreq.amount &&
        truthyStr dreq.currency) = false →
      deposit s dreq =
        (.err 400 "accountId, amount, and currency are required", s, [])) ∧
    (∀ A : ℚ, dreq.amount = some A → A ≤ 0 →
      rejectedBeforeStore (deposit s dreq) s) ∧
    ((truthyNum wreq.accountId && truthyNum wreq.amount &&
        truthyStr wreq.currency) = false →
      withdraw s wreq =
        (.err 400 "accountId, amount, and currency are required", s, [])) ∧
    (∀ A : ℚ, wreq.amount = some A → A ≤ 0 →
      rejectedBeforeStore (withdraw s wreq) s) ∧
    ((truthyNum treq.sourceAccountId && truthyNum treq.destinationAccountId &&
        truthyNum treq.amount && truthyStr treq.currency) = false →
      transfer s treq =
        (.err 400
          "sourceAccountId, destinationAccountId, amount, and currency are required",
         s, [])) ∧
    (∀ A : ℚ, treq.amount = some A → A ≤ 0 →
      rejectedBeforeStore (transfer s treq) s) ∧
    (jsTrunc (treq.sourceAccountId.getD 0) =
        jsTrunc (treq.destinationAccountId.getD 0) →
      rejectedBeforeStore (transfer s treq) s) := by
  refine ⟨?_, ?_, ?_, ?_, ?_, ?_, ?_⟩
  · intro h
    simp [deposit, h]
  · intro A hA hle
    rcases Bool.eq_false_or_eq_true (truthyNum dreq.accountId &&
      truthyNum dreq.amount && truthyStr dreq.currency) with hb | hb
    · have hmain : deposit s dreq = (.err 400 "Invalid accountId or amount", s, []) := by
        unfold deposit
        rw [hb]
        simp only [Bool.not_true, Bool.false_eq_true, if_false]
        rw [hA]
        simp only [Option.getD_some]
        rw [if_pos hle]
      exact ⟨⟨_, by rw [hmain]⟩, by rw [hmain], by rw [hmain]⟩
    · exact ⟨⟨"accountId, amount, and currency are required", by simp [deposit, hb]⟩,
        by simp [deposit, hb], by simp [deposit, hb]⟩
  · intro h
    simp [withdraw, h]
  · intro A hA hle
    rcases Bool.eq_false_or_eq_true (truthyNum wreq.accountId &&
      truthyNum wreq.amount && truthyStr wreq.currency) with hb | hb
    · have hmain : withdraw s wreq = (.err 400 "Invalid accountId or amount", s, []) := by
        unfold withdraw
        rw [hb]
        simp only [Bool.not_true, Bool.false_eq_true, if_false]
        rw [hA]
        simp only [Option.getD_some]
        rw [if_pos hle]
      exact ⟨⟨_, by rw [hmain]⟩, by rw [hmain], by rw [hmain]⟩
    · exact ⟨⟨"accountId, amount, and currency are required", by simp [withdraw, hb]⟩,
        by simp [withdraw, hb], by simp [withdraw, hb]⟩
  · intro h
    simp [transfer, h]
  · intro A hA hle
    rcases Bool.eq_false_or_eq_true (truthyNum treq.sourceAccountId &&
      truthyNum treq.destinationAccountId && truthyNum treq.amount &&
      truthyStr treq.currency) with hb | hb
    · have hmain : transfer s treq = (.err 400 "Invalid account ids or amount", s, []) := by
        unfold transfer
        rw [hb]
        simp only [Bool.not_true, Bool.false_eq_true, if_false]
        rw [hA]
        simp only [Option.getD_some]
        rw [if_pos hle]
      exact ⟨⟨_, by rw [hmain]⟩, by rw [hmain], by rw [hmain]⟩
    · exact ⟨⟨"sourceAccountId, destinationAccountId, amount, and currency are required",
          by simp [transfer, hb]⟩, by simp [transfer, hb], by simp [transfer, hb]⟩
  · intro heq
    rcases Bool.eq_false_or_eq_true (truthyNum treq.sourceAccountId &&
      truthyNum treq.destinationAccountId && truthyNum treq.amount &&
      truthyStr treq.currency) with hb | hb
    · by_cases hle : (treq.amount.getD 0) ≤ 0
      · have hmain : transfer s treq = (.err 400 "Invalid account ids or amount", s, []) := by
          unfold transfer
          rw [hb]
          simp only [Bool.not_true, Bool.false_eq_true, if_false]
          rw [if_pos hle]
        exact ⟨⟨_, by rw [hmain]⟩, by rw [hmain], by rw [hmain]⟩
      · have hmain : transfer s treq =
            (.err 400 "Source and destination accounts must be different", s, []) := by
          unfold transfer
          rw [hb]
          simp only [Bool.not_true, Bool.false_eq_true, if_false]
          rw [if_neg hle]
          rw [if_pos (by simpa using heq)]
        exact ⟨⟨_, by rw [hmain]⟩, by rw [hmain], by rw [hmain]⟩
    · exact ⟨⟨"sourceAccountId, destinationAccountId, amount, and currency are required",
          by simp [transfer, hb]⟩, by simp [transfer, hb], by simp [transfer, hb]⟩

/-- C7 witness: on `w2Store`, a deposit missing its currency, a withdrawal of
-3 and a self-transfer are all rejected 400 with untouched store and empty
SQL trace. -/
theorem invalid_input_untouched_witness :
    deposit w2Store ⟨some 1, some 5, none, none⟩ =
      (.err 400 "accountId, amount, and currency are required", w2Store, []) ∧
    rejectedBeforeStore (withdraw w2Store ⟨some 1, some (-3), some "USD", none⟩)
      w2Store ∧
    rejectedBeforeStore (transfer w2Store ⟨some 1, some 1, some 5, some "USD", none⟩)
      w2Store := by
  obtain ⟨h1, _, _, h4, _, _, h7⟩ := invalid_input_untouched w2Store
    ⟨some 1, some 5, none, none⟩ ⟨some 1, some (-3), some "USD", none⟩
    ⟨some 1, some 1, some 5, some "USD", none⟩
  exact ⟨h1 (by simp [truthyNum, truthyStr]),
         h4 (-3) rfl (by norm_num),
         h7 (by norm_num)⟩

/-- C8: a Deposit or Withdraw whose (otherwise valid) request names a
non-existent account, and a Transfer where the single two-id existence check
does not find both accounts, return 404 AccountNotFound, roll back the
opened store transaction (trace BEGIN, one existence SELECT, ROLLBACK) and
write nothing: the store is exactly as before the call.  The transfer trace
contains one selectAccounts statement carrying both ids. -/
theorem account_not_found_aborts (s : Store) (dreq : DepositReq)
    (wreq : WithdrawReq) (treq : TransferReq) :
    ((∃ aid A c, dreq.accountId = some aid ∧ aid ≠ 0 ∧ dreq.amount = some A ∧
        0 < A ∧ dreq.currency = some c ∧ c ≠ "" ∧
        (accountRows s (jsTrunc aid)).length = 0) →
      deposit s dreq = (.err 404 "Account not found", s,
        [.begin, .selectAccounts [jsTrunc (dreq.accountId.getD 0)], .rollback])) ∧
    ((∃ aid A c, wreq.accountId = some aid ∧ aid ≠ 0 ∧ wreq.amount = some A ∧
        0 < A ∧ wreq.currency = some c ∧ c ≠ "" ∧
        (accountRows s (jsTrunc aid)).length = 0) →
      withdraw s wreq = (.err 404 "Account not found", s,
        [.begin, .selectAccounts [jsTrunc (wreq.accountId.getD 0)], .rollback])) ∧
    ((∃ srcq dstq A c, treq.sourceAccountId = some srcq ∧ srcq ≠ 0 ∧
        treq.destinationAccountId = some dstq ∧ dstq ≠ 0 ∧
        treq.amount = some A ∧ 0 < A ∧ treq.currency = some c ∧ c ≠ "" ∧
        jsTrunc srcq ≠ jsTrunc dstq ∧
        (accountRows2 s (jsTrunc srcq) (jsTrunc dstq)).length ≠ 2) →
      transfer s treq = (.err 404 "One or both accounts not found", s,
        [.begin,
         .selectAccounts [jsTrunc (treq.sourceAccountId.getD 0),
                          jsTrunc (treq.destinationAccountId.getD 0)],
         .rollback])) := by
  refine ⟨?_, ?_, ?_⟩
  · rintro ⟨aid, A, c, ha, haid, hA, hApos, hc, hcne, hmiss⟩
    have e1 : (aid != 0) = true := by simp [haid]
    have e2 : (A != 0) = true := by simp [ne_of_gt hApos]
    have e3 : (c != "") = true := by simp [hcne]
    unfold deposit
    rw [ha, hA, hc]
    simp only [truthyNum, truthyStr, Option.getD_some, e1, e2, e3,
      Bool.and_self, Bool.not_true, Bool.false_eq_true, if_false]
    rw [if_neg (not_le.mpr hApos)]
    rw [if_pos (by simpa using hmiss)]
  · rintro ⟨aid, A, c, ha, haid, hA, hApos, hc, hcne, hmiss⟩
    have e1 : (aid != 0) = true := by simp [haid]
    have e2 : (A != 0) = true := by simp [ne_of_gt hApos]
    have e3 : (c != "") = true := by simp [hcne]
    unfold withdraw
    rw [ha, hA, hc]
    simp only [truthyNum, truthyStr, Option.getD_some, e1, e2, e3,
      Bool.and_self, Bool.not_true, Bool.false_eq_true, if_false]
    rw [if_neg (not_le.mpr hApos)]
    rw [if_pos (by simpa using hmiss)]
  · rintro ⟨srcq, dstq, A, c, hs, hsne, hd, hdne, hA, hApos, hc, hcne, hneq, hmiss⟩
    have e1 : (srcq != 0) = true := by simp [hsne]
    have e2 : (dstq != 0) = true := by simp [hdne]
    have e3 : (A != 0) = true := by simp [ne_of_gt hApos]
    have e4 : (c != "") = true := by simp [hcne]
    unfold transfer
    rw [hs, hd, hA, hc]
    simp only [truthyNum, truthyStr, Option.getD_some, e1, e2, e3, e4,
      Bool.and_self, Bool.not_true, Bool.false_eq_true, if_false]
    rw [if_neg (not_le.mpr hApos)]
    rw [if_neg (by simpa using hneq)]
    rw [if_pos (by simpa using hmiss)]

/-- C8 witness: on `w2Store` (accounts 1 and 2 only), Deposit(9, 10),
Withdraw(9, 10) and Transfer(1→9, 10) all return 404 with the store
unchanged after BEGIN, one existence SELECT and ROLLBACK. -/
theorem account_not_found_aborts_witness :
    deposit w2Store ⟨some 9, some 10, some "USD", none⟩ =
      (.err 404 "Account not found", w2Store,
       [.begin, .selectAccounts [jsTrunc ((some (9 : ℚ)).getD 0)], .rollback]) ∧
    withdraw w2Store ⟨some 9, some 10, some "USD", none⟩ =
      (.err 404 "Account not found", w2Store,
       [.begin, .selectAccounts [jsTrunc ((some (9 : ℚ)).getD 0)], .rollback]) ∧
    transfer w2Store ⟨some 1, some 9, some 10, some "USD", none⟩ =
      (.err 404 "One or both accounts not found", w2Store,
       [.begin, .selectAccounts [jsTrunc ((some (1 : ℚ)).getD 0),
                                 jsTrunc ((some (9 : ℚ)).getD 0)], .rollback]) := by
  have hj1 : jsTrunc (1 : ℚ) = 1 := by norm_num [jsTrunc]
  have hj9 : jsTrunc (9 : ℚ) = 9 := by norm_num [jsTrunc]
  obtain ⟨h1, h2, h3⟩ := account_not_found_aborts w2Store
    ⟨some 9, some 10, some "USD", none⟩ ⟨some 9, some 10, some "USD", none⟩
    ⟨some 1, some 9, some 10, some "USD", none⟩
  refine ⟨h1 ⟨9, 10, "USD", rfl, by norm_num, rfl, by norm_num, rfl, by simp, ?_⟩,
          h2 ⟨9, 10, "USD", rfl, by norm_num, rfl, by norm_num, rfl, by simp, ?_⟩,
          h3 ⟨1, 9, 10, "USD", rfl, by norm_num, rfl, by norm_num, rfl, by norm_num,
              rfl, by simp, ?_, ?_⟩⟩
  · rw [hj9]
    simp [accountRows, w2Store]
  · rw [hj9]
    simp [accountRows, w2Store]
  · rw [hj1, hj9]
    norm_num
  · rw [hj1, hj9]
    simp [accountRows2, w2Store]

/-- C10: a money-operation request in which a present numeric field holds the
falsy number 0 — the amount, or any account id — fails the JavaScript
truthiness presence check and is answered with the missing-required-fields
400 response, with the store untouched and no SQL issued; in particular a
request naming account id 0 is never answered 404 AccountNotFound. -/
theorem falsy_zero_is_missing (s : Store) (dreq : DepositReq)
    (wreq : WithdrawReq) (treq : TransferReq) :
    (dreq.accountId = some 0 ∨ dreq.amount = some 0 →
      deposit s dreq =
        (.err 400 "accountId, amount, and currency are required", s, [])) ∧
    (wreq.accountId = some 0 ∨ wreq.amount = some 0 →
      withdraw s wreq =
        (.err 400 "accountId, amount, and currency are required", s, [])) ∧
    (treq.sourceAccountId = some 0 ∨ treq.destinationAccountId = some 0 ∨
        treq.amount = some 0 →
      transfer s treq =
        (.err 400
          "sourceAccountId, destinationAccountId, amount, and currency are required",
         s, [])) := by
  refine ⟨?_, ?_, ?_⟩
  · rintro (h | h) <;> simp [deposit, truthyNum, h]
  · rintro (h | h) <;> simp [withdraw, truthyNum, h]
  · rintro (h | h | h) <;> simp [transfer, truthyNum, h]

/-- C10 witness: on `w2Store`, Deposit(0, 5), Withdraw with amount 0 and a
Transfer whose destination id is 0 are all answered with the missing-fields
400 response and an untouched store — never 404. -/
theorem falsy_zero_is_missing_witness :
    deposit w2Store ⟨some 0, some 5, some "USD", none⟩ =
      (.err 400 "accountId, amount, and currency are required", w2Store, []) ∧
    withdraw w2Store ⟨some 1, some 0, some "USD", none⟩ =
      (.err 400 "accountId, amount, and currency are required", w2Store, []) ∧
    transfer w2Store ⟨some 1, some 0, some 5, some "USD", none⟩ =
      (.err 400
        "sourceAccountId, destinationAccountId, amount, and currency are required",
       w2Store, []) := by
  obtain ⟨h1, h2, h3⟩ := falsy_zero_is_missing w2Store
    ⟨some 0, some 5, some "USD", none⟩ ⟨some 1, some 0, some "USD", none⟩
    ⟨some 1, some 0, some 5, some "USD", none⟩
  exact ⟨h1 (Or.inl rfl), h2 (Or.inr rfl), h3 (Or.inr (Or.inl rfl))⟩

/-- A rolled-back attempt leaves the rows as they were; advancing only the
sequences preserves the sequence discipline. -/
theorem rollback_step (s : Store) (dtx den : Nat) (hWF : WF s) :
    WF ⟨s.accounts, s.transactions, s.entries, s.nextTxId + dtx,
        s.nextEntryId + den⟩ :=
  ⟨fun t ht => lt_of_lt_of_le (hWF.1 t ht) (Nat.le_add_right _ _),
   fun e he => lt_of_lt_of_le (hWF.2 e he) (Nat.le_add_right _ _)⟩

/-- Committing an attempt that inserted one pending transaction row with the
fresh id and entries referencing it preserves the sequence discipline and
appends exactly one row, already `completed`, leaving all prior rows
untouched. -/
theorem commit_step (s : Store) (tx : Transaction) (es : List LedgerEntry)
    (dtx den : Nat)
    (hid : tx.id = s.nextTxId)
    (hes : ∀ e ∈ es, e.transaction_id = s.nextTxId)
    (hWF : WF s) (hd : 1 ≤ dtx) :
    WF ⟨s.accounts, setTxStatus (s.transactions ++ [tx]) s.nextTxId "completed",
        s.entries ++ es, s.nextTxId + dtx, s.nextEntryId + den⟩ ∧
    ∃ rest, setTxStatus (s.transactions ++ [tx]) s.nextTxId "completed" =
        s.transactions ++ rest ∧ ∀ u ∈ rest, u.status = "completed" := by
  have hfresh : ∀ t ∈ s.transactions, t.id ≠ tx.id := by
    intro t ht
    rw [hid]
    exact Nat.ne_of_lt (hWF.1 t ht)
  have hset : setTxStatus (s.transactions ++ [tx]) s.nextTxId "completed" =
      s.transactions ++ [{ tx with status := "completed" }] := by
    rw [← hid]
    exact setTxStatus_append_fresh s.transactions tx "completed" hfresh
  refine ⟨⟨?_, ?_⟩, [{ tx with status := "completed" }], hset, by simp⟩
  · intro t ht
    rw [hset] at ht
    rcases List.mem_append.mp ht with h | h
    · exact lt_of_lt_of_le (hWF.1 t h) (Nat.le_add_right _ _)
    · have ht' : t = { tx with status := "completed" } := by simpa using h
      subst ht'
      show tx.id < s.nextTxId + dtx
      omega
  · intro e he
    rcases List.mem_append.mp he with h | h
    · exact lt_of_lt_of_le (hWF.2 e h) (Nat.le_add_right _ _)
    · have h2 := hes e h
      show e.transaction_id < s.nextTxId + dtx
      omega

/-- Any single API call preserves the sequence discipline and only appends
transaction rows; every appended row already has status completed (pending
rows exist only inside the in-flight attempt, never in the post-call
store). -/
theorem applyOp_spec (s : Store) (op : Op) (hWF : WF s) :
    WF (applyOp s op) ∧
    ∃ rest, (applyOp s op).transactions = s.transactions ++ rest ∧
      ∀ t ∈ rest, t.status = "completed" := by
  cases op with
  | dep r =>
    dsimp only [applyOp]
    simp only [deposit]
    split
    · exact ⟨hWF, [], by simp, by simp⟩
    · split
      · exact ⟨hWF, [], by simp, by simp⟩
      · split
        · exact ⟨hWF, [], by simp, by simp⟩
        · obtain ⟨hwf2, rest, hrest, hall⟩ :=
            commit_step s
              ⟨s.nextTxId, "deposit", r.amount.getD 0, r.currency.getD "", none,
               some (jsTrunc (r.accountId.getD 0)), "pending", jsOrNull r.description⟩
              [⟨s.nextEntryId, s.nextTxId, jsTrunc (r.accountId.getD 0), "credit",
                r.amount.getD 0⟩]
              1 1 rfl (by simp) hWF (le_refl 1)
          exact ⟨hwf2, rest, hrest, hall⟩
  | wd r =>
    dsimp only [applyOp]
    simp only [withdraw]
    split
    · exact ⟨hWF, [], by simp, by simp⟩
    · split
      · exact ⟨hWF, [], by simp, by simp⟩
      · split
        · exact ⟨hWF, [], by simp, by simp⟩
        · split
          · exact ⟨rollback_step s 1 1 hWF, [], by simp, by simp⟩
          · obtain ⟨hwf2, rest, hrest, hall⟩ :=
              commit_step s
                ⟨s.nextTxId, "withdrawal", r.amount.getD 0, r.currency.getD "",
                 some (jsTrunc (r.accountId.getD 0)), none, "pending",
                 jsOrNull r.description⟩
                [⟨s.nextEntryId, s.nextTxId, jsTrunc (r.accountId.getD 0), "debit",
                  r.amount.getD 0⟩]
                1 1 rfl (by simp) hWF (le_refl 1)
            exact ⟨hwf2, rest, hrest, hall⟩
  | tr r =>
    dsimp only [applyOp]
    simp only [transfer]
    split
    · exact ⟨hWF, [], by simp, by simp⟩
    · split
      · exact ⟨hWF, [], by simp, by simp⟩
      · split
        · exact ⟨hWF, [], by simp, by simp⟩
        · split
          · exact ⟨hWF, [], by simp, by simp⟩
          · split
            · exact ⟨rollback_step s 1 2 hWF, [], by simp, by simp⟩
            · obtain ⟨hwf2, rest, hrest, hall⟩ :=
                commit_step s
                  ⟨s.nextTxId, "transfer", r.amount.getD 0, r.currency.getD "",
                   some (jsTrunc (r.sourceAccountId.getD 0)),
                   some (jsTrunc (r.destinationAccountId.getD 0)), "pending",
                   jsOrNull r.description⟩
                  [⟨s.nextEntryId, s.nextTxId, jsTrunc (r.sourceAccountId.getD 0),
                    "debit", r.amount.getD 0⟩,
                   ⟨s.nextEntryId + 1, s.nextTxId,
                    jsTrunc (r.destinationAccountId.getD 0), "credit",
                    r.amount.getD 0⟩]
                  1 2 rfl (by simp) hWF (le_refl 1)
              exact ⟨hwf2, rest, hrest, hall⟩

/-- C6: starting from any store whose transaction rows all have status
completed and whose row ids respect the SERIAL sequences, after any sequence
of deposits, withdrawals and transfers every persisted transaction row still
has status completed — a row is created pending only inside an in-flight
attempt and is either updated once to the terminal status completed and
committed, or discarded whole by rollback; no failed row is ever persisted —
and the original transaction rows survive unmutated as a prefix of the
post-call rows. -/
theorem transaction_status_lifecycle (s : Store) (ops : List Op)
    (hWF : WF s) (hall : allCompleted s) :
    WF (runOps s ops) ∧ allCompleted (runOps s ops) ∧
    ∃ rest, (runOps s ops).transactions = s.transactions ++ rest := by
  induction ops generalizing s with
  | nil => exact ⟨hWF, hall, [], by simp [runOps]⟩
  | cons op ops ih =>
    obtain ⟨hwf1, rest1, hr1, hall1⟩ := applyOp_spec s op hWF
    have hallc : allCompleted (applyOp s op) := by
      intro t ht
      rw [hr1] at ht
      rcases List.mem_append.mp ht with h | h
      · exact hall t h
      · exact hall1 t h
    obtain ⟨hwf2, hall2, rest2, hr2⟩ := ih (applyOp s op) hwf1 hallc
    have hrun : runOps s (op :: ops) = runOps (applyOp s op) ops := by
      simp [runOps]
    refine ⟨by rw [hrun]; exact hwf2, by rw [hrun]; exact hall2,
            rest1 ++ rest2, ?_⟩
    rw [hrun, hr2, hr1, List.append_assoc]

/-- C6 witness: from `w2Store` (all rows completed, ids below the sequences)
a deposit into account 1: all persisted transactions remain completed and
the two original rows survive as a prefix. -/
theorem transaction_status_lifecycle_witness :
    WF (runOps w2Store [.dep ⟨some 1, some 5, some "USD", none⟩]) ∧
    allCompleted (runOps w2Store [.dep ⟨some 1, some 5, some "USD", none⟩]) ∧
    ∃ rest, (runOps w2Store [.dep ⟨some 1, some 5, some "USD", none⟩]).transactions =
      w2Store.transactions ++ rest :=
  transaction_status_lifecycle w2Store [.dep ⟨some 1, some 5, some "USD", none⟩]
    ⟨by decide, by decide⟩ (by unfold allCompleted; decide)

/-!
Interleaving model for two concurrent POST /withdrawals sessions.  The source
opens its store transaction with a plain BEGIN — PostgreSQL's default READ
COMMITTED isolation — and issues no SELECT ... FOR UPDATE and no SET
TRANSACTION ISOLATION LEVEL, so a statement of one session sees the rows
committed when the statement starts plus the session's own uncommitted
writes, and never another session's uncommitted rows.  Each session's
uncommitted writes are a `Pending` set; the SERIAL sequences are global and
non-transactional, advancing as soon as a row is inserted.  `wdCheckPhase`
runs a session's statements up to and including the balance recomputation
(handler steps 2-6: BEGIN, existence check, INSERT transaction, INSERT debit
entry, balance SELECT, and the sign test) for an already-validated request;
`wdCommitPhase` runs the rest (UPDATE to completed, COMMIT), publishing the
session's rows.
-/

/-- One session's uncommitted writes. -/
structure Pending where
  txs : List Transaction
  entries : List LedgerEntry
deriving DecidableEq, Repr

/-- READ COMMITTED visibility: committed rows plus the session's own
uncommitted writes. -/
def visibleEntries (g : Store) (p : Pending) : List LedgerEntry :=
  g.entries ++ p.entries

/-- Statements 2-6 of POST /withdrawals for one session against committed
state `g`: existence check, insert the pending transaction row and the debit
entry into the session's write set (sequences advance globally), recompute
the balance over the rows visible to this session, and test its sign.
Returns none where the handler would roll back, otherwise the advanced
global state, the session's pending writes and its transaction id. -/
def wdCheckPhase (g : Store) (accId : Int) (amt : ℚ) (currency : String) :
    Option (Store × Pending × Nat) :=
  if (accountRows g accId).length == 0 then none
  else
    let txId := g.nextTxId
    let tx : Transaction :=
      ⟨txId, "withdrawal", amt, currency, some accId, none, "pending", none⟩
    let e : LedgerEntry := ⟨g.nextEntryId, txId, accId, "debit", amt⟩
    let g' : Store :=
      ⟨g.accounts, g.transactions, g.entries, g.nextTxId + 1, g.nextEntryId + 1⟩
    let p : Pending := ⟨[tx], [e]⟩
    if sumEntries (visibleEntries g' p) accId < 0 then none
    else some (g', p, txId)

/-- Statement 7 of POST /withdrawals: UPDATE the session's pending row to
completed, then COMMIT, publishing the session's rows. -/
def wdCommitPhase (g : Store) (p : Pending) (txId : Nat) : Store :=
  ⟨g.accounts, g.transactions ++ setTxStatus p.txs txId "completed",
   g.entries ++ p.entries, g.nextTxId, g.nextEntryId⟩

/-- Account 1 with committed balance 100.00. -/
def raceStore : Store :=
  ⟨[⟨1, "u1", "checking", "USD", "active"⟩],
   [⟨1, "deposit", 100, "USD", none, some 1, "completed", none⟩],
   [⟨1, 1, 1, "credit", 100⟩], 2, 2⟩

/-- Global state after session 1's check phase. -/
def raceG1 : Store :=
  ⟨[⟨1, "u1", "checking", "USD", "active"⟩],
   [⟨1, "deposit", 100, "USD", none, some 1, "completed", none⟩],
   [⟨1, 1, 1, "credit", 100⟩], 3, 3⟩

/-- Global state after session 2's check phase. -/
def raceG2 : Store :=
  ⟨[⟨1, "u1", "checking", "USD", "active"⟩],
   [⟨1, "deposit", 100, "USD", none, some 1, "completed", none⟩],
   [⟨1, 1, 1, "credit", 100⟩], 4, 4⟩

/-- Session 1's uncommitted writes: its pending withdrawal row and debit. -/
def raceP1 : Pending :=
  ⟨[⟨2, "withdrawal", 60, "USD", some 1, none, "pending", none⟩],
   [⟨2, 2, 1, "debit", 60⟩]⟩

/-- Session 2's uncommitted writes. -/
def raceP2 : Pending :=
  ⟨[⟨3, "withdrawal", 60, "USD", some 1, none, "pending", none⟩],
   [⟨3, 3, 1, "debit", 60⟩]⟩

/-- C9: the code's two-withdrawal race.  Schedule: session 1 runs its
statements through the balance check; session 2 does the same before
session 1 commits; then both commit.  Neither balance SELECT sees the other
session's uncommitted debit (READ COMMITTED, and the code takes no row
locks), so both sessions compute 100 − 60 = 40 ≥ 0, both pass the
insufficient-funds test — both withdrawals return 201 — and the committed
balance of account 1 ends at −20, violating the exactly-one-succeeds
property the specification mandates via locking the code does not
implement. -/
theorem concurrent_withdrawals_both_succeed :
    wdCheckPhase raceStore 1 60 "USD" = some (raceG1, raceP1, 2) ∧
    wdCheckPhase raceG1 1 60 "USD" = some (raceG2, raceP2, 3) ∧
    sumEntries (wdCommitPhase (wdCommitPhase raceG2 raceP1 2) raceP2 3).entries 1
      = -20 := by
  refine ⟨?_, ?_, ?_⟩ <;>
    simp [wdCheckPhase, wdCommitPhase, visibleEntries, accountRows,
      sumEntries, signedAmount, setTxStatus, raceStore, raceG1, raceG2,
      raceP1, raceP2] <;>
    norm_num

end Ledger
